import Mathlib

/-!
A shallow embedding of the PMSGMBY pending-release dashboard (src/PMSG.py).
The pipeline is: load raw rows and drop unparseable dates, compute days
pending and an ageing bucket per record, filter by sub-division and bucket,
then build a summary pivot with a grand-total row and a detail table sorted
by pending days descending.  Dates are modelled as parsed day-month-year
triples, day arithmetic via a proleptic Gregorian day number.
-/

/-- A calendar date as parsed from day-month-year text. -/
structure Date where
  day : Nat
  month : Nat
  year : Nat
deriving DecidableEq

/-- Gregorian leap-year test. -/
def isLeap (y : Nat) : Bool :=
  (y % 4 == 0 && y % 100 != 0) || y % 400 == 0

/-- Number of days in month `m` of year `y`. -/
def daysInMonth (m y : Nat) : Nat :=
  if m = 2 then (if isLeap y then 29 else 28)
  else if m = 4 ∨ m = 6 ∨ m = 9 ∨ m = 11 then 30
  else 31

/-- Split a character list at every occurrence of `sep`, like
`String.splitOn` for a one-character separator. -/
def splitOnChar (sep : Char) : List Char → List (List Char)
  | [] => [[]]
  | c :: cs =>
    match splitOnChar sep cs, decide (c = sep) with
    | r, true => [] :: r
    | [], false => [[c]]
    | h :: t, false => (c :: h) :: t

/-- Read a nonempty all-digit character list as a number, like
`String.toNat?`. -/
def digitsToNat (cs : List Char) : Option Nat :=
  if cs ≠ [] ∧ cs.all Char.isDigit
  then some (cs.foldl (fun a c => a * 10 + (c.toNat - 48)) 0)
  else none

/-- Parse of a day-month-year text field, modelling
`pd.to_datetime(column, format="%d-%m-%Y", errors="coerce")`
(src/PMSG.py lines 60-64): the whole string must be day, month and
four-digit year separated by hyphens, day and month at most two digits and
nonzero, and the triple must be a real calendar date; anything else coerces
to null, here `none`.  The pandas timestamp year range is not modelled. -/
def parseDMY (s : String) : Option Date :=
  match splitOnChar (Char.ofNat 45) s.toList with
  | [ds, ms, ys] =>
    match digitsToNat ds, digitsToNat ms, digitsToNat ys with
    | some d, some m, some y =>
      if ds.length ≤ 2 ∧ 1 ≤ d ∧ d ≤ 31 ∧ ms.length ≤ 2 ∧ 1 ≤ m ∧ m ≤ 12
          ∧ ys.length = 4 ∧ d ≤ daysInMonth m y
      then some ⟨d, m, y⟩ else none
    | _, _, _ => none
  | _ => none

/-- Day number of a date (days since 1970-01-01, proleptic Gregorian): the
arithmetic behind subtracting two pandas timestamps and taking `.dt.days`. -/
def Date.toDays (dt : Date) : Int :=
  let y : Int := if dt.month ≤ 2 then (dt.year : Int) - 1 else (dt.year : Int)
  let era : Int := (if 0 ≤ y then y else y - 399) / 400
  let yoe : Int := y - era * 400
  let mp : Int := ((dt.month : Int) + 9) % 12
  let doy : Int := (153 * mp + 2) / 5 + (dt.day : Int) - 1
  let doe : Int := yoe * 365 + yoe / 4 - yoe / 100 + doy
  era * 146097 + doe - 719468

/-- Zero-pad a number to two digits, as strftime `%d` and `%m` do. -/
def pad2 (n : Nat) : String :=
  if n < 10 then "0" ++ toString n else toString n

/-- Zero-pad a number to four digits, as strftime `%Y` does. -/
def pad4 (n : Nat) : String :=
  if n < 10 then "000" ++ toString n
  else if n < 100 then "00" ++ toString n
  else if n < 1000 then "0" ++ toString n
  else toString n

/-- Render a date back to day-month-year text, `strftime("%d-%m-%Y")`
(src/PMSG.py line 174). -/
def formatDMY (d : Date) : String :=
  pad2 d.day ++ "-" ++ pad2 d.month ++ "-" ++ pad4 d.year

/-- A raw uploaded row: the positionally addressed columns the loader keeps
(column 0 date text, column 1 application number, column 2 consumer number,
column 5 sub-division); src/PMSG.py lines 49-58. -/
structure RawRow where
  col0 : String
  col1 : String
  col2 : String
  col5 : String
deriving DecidableEq

/-- A loaded record after date parsing and renaming (src/PMSG.py lines 49-66). -/
structure Record where
  installation_date : Date
  application_no : String
  consumer_no : String
  sub_division : String
deriving DecidableEq

/-- Parse one raw row: `none` exactly when its date field fails to parse. -/
def parseRow (raw : RawRow) : Option Record :=
  (parseDMY raw.col0).map fun d =>
    { installation_date := d, application_no := raw.col1,
      consumer_no := raw.col2, sub_division := raw.col5 }

/-- The record loader: parse every row's date and drop the rows whose date
coerced to null (`dropna`, src/PMSG.py line 66). -/
def loadRecords (rows : List RawRow) : List Record :=
  rows.filterMap parseRow

/-- `(today - installation_date).dt.days + 1` (src/PMSG.py line 69), with
both dates as day numbers. -/
def daysPending (today inst : Int) : Int :=
  today - inst + 1

/-- The ageing-bucket classifier, src/PMSG.py lines 71-81. -/
def ageing_bucket (days : Int) : String :=
  if days ≤ 7 then "0 to 7 Days"
  else if days ≤ 15 then "8 to 15 Days"
  else if days ≤ 30 then "16 to 30 Days"
  else if days ≤ 45 then "31 to 45 Days"
  else "More than 45 Days"

/-- The fixed ordered bucket enumeration, src/PMSG.py lines 88-94. -/
def bucket_order : List String :=
  ["0 to 7 Days", "8 to 15 Days", "16 to 30 Days", "31 to 45 Days",
   "More than 45 Days"]

/-- Position of a label in `bucket_order`, used to state monotonicity. -/
def bucketIndex (label : String) : Nat :=
  bucket_order.indexOf label

/-- A classified record: a loaded record plus its computed `days_pending`
and `age_bucket` columns (src/PMSG.py lines 68-83). -/
structure Row where
  installation_date : Date
  application_no : String
  consumer_no : String
  sub_division : String
  days_pending : Int
  age_bucket : String
deriving DecidableEq

/-- The classifier step applied to one record, given the reference day
number `today` (src/PMSG.py lines 68-83). -/
def classify (today : Int) (r : Record) : Row :=
  let d := daysPending today r.installation_date.toDays
  { installation_date := r.installation_date, application_no := r.application_no,
    consumer_no := r.consumer_no, sub_division := r.sub_division,
    days_pending := d, age_bucket := ageing_bucket d }

/-- The filter engine (src/PMSG.py lines 111-117): an equality filter on
sub-division unless the sentinel "ALL" is selected, then an equality filter
on age bucket unless "ALL" is selected. -/
def filtered_df (sel_sd sel_bucket : String) (rows : List Row) : List Row :=
  let r1 := if sel_sd ≠ "ALL" then rows.filter (fun r => r.sub_division == sel_sd)
            else rows
  if sel_bucket ≠ "ALL" then r1.filter (fun r => r.age_bucket == sel_bucket)
  else r1

/-- The distinct sub-divisions of a record set in ascending lexicographic
order: the pivot index (pandas sorts the group keys ascending),
src/PMSG.py lines 133-142. -/
def subDivisions (rows : List Row) : List String :=
  List.insertionSort (· ≤ ·) (rows.map (fun r => r.sub_division)).dedup

/-- One pivot cell: the count of records of sub-division `s` falling in
bucket `label` (src/PMSG.py lines 133-140). -/
def cellCount (rows : List Row) (s label : String) : Nat :=
  (rows.filter fun r => r.sub_division == s && r.age_bucket == label).length

/-- One summary row: `Sr No.`, sub-division, the five bucket counts in the
order of `bucket_order`, and the TOTAL column. -/
structure SummaryRow where
  sr_no : Int
  sub_division : String
  c0to7 : Nat
  c8to15 : Nat
  c16to30 : Nat
  c31to45 : Nat
  cMore45 : Nat
  total : Nat
deriving DecidableEq

/-- One pivot row for sub-division `s` with sequence number `i`; its TOTAL
is the row-wise sum over the five reindexed bucket columns
(src/PMSG.py lines 133-147). -/
def mkSummaryRow (rows : List Row) (i : Int) (s : String) : SummaryRow :=
  let a := cellCount rows s "0 to 7 Days"
  let b := cellCount rows s "8 to 15 Days"
  let c := cellCount rows s "16 to 30 Days"
  let d := cellCount rows s "31 to 45 Days"
  let e := cellCount rows s "More than 45 Days"
  { sr_no := i, sub_division := s, c0to7 := a, c8to15 := b, c16to30 := c,
    c31to45 := d, cMore45 := e, total := a + b + c + d + e }

/-- The pivot rows numbered consecutively from `i` (the `Sr No.` insertion,
src/PMSG.py line 147). -/
def numberedRows (rows : List Row) (i : Int) : List String → List SummaryRow
  | [] => []
  | s :: ss => mkSummaryRow rows i s :: numberedRows rows (i + 1) ss

/-- The summary table before the grand-total row: one row per distinct
sub-division, numbered from 1 (src/PMSG.py lines 133-147). -/
def summary (rows : List Row) : List SummaryRow :=
  numberedRows rows 1 (subDivisions rows)

/-- The synthetic grand-total row: sequence number 0, label "Grand Total",
each column the column-wise sum over the given rows
(src/PMSG.py lines 149-153). -/
def grand_row (srows : List SummaryRow) : SummaryRow :=
  { sr_no := 0, sub_division := "Grand Total",
    c0to7 := (srows.map (fun r => r.c0to7)).sum,
    c8to15 := (srows.map (fun r => r.c8to15)).sum,
    c16to30 := (srows.map (fun r => r.c16to30)).sum,
    c31to45 := (srows.map (fun r => r.c31to45)).sum,
    cMore45 := (srows.map (fun r => r.cMore45)).sum,
    total := (srows.map (fun r => r.total)).sum }

/-- The final summary table: the pivot rows followed by the grand-total row
(src/PMSG.py line 155). -/
def final_summary (rows : List Row) : List SummaryRow :=
  summary rows ++ [grand_row (summary rows)]

/-- Descending order on pending days, the sort key of the detail table. -/
def pendingGE (a b : Row) : Prop :=
  b.days_pending ≤ a.days_pending

instance : DecidableRel pendingGE :=
  fun a b => inferInstanceAs (Decidable (b.days_pending ≤ a.days_pending))

instance : IsTotal Row pendingGE :=
  ⟨fun a b => le_total b.days_pending a.days_pending⟩

instance : IsTrans Row pendingGE :=
  ⟨fun _ _ _ hab hbc => le_trans hbc hab⟩

/-- `sort_values("days_pending", ascending=False)` (src/PMSG.py line 161). -/
def sortByPendingDesc (rows : List Row) : List Row :=
  List.insertionSort pendingGE rows

/-- One detail-table row: `Sr No.`, the date rendered back to
day-month-year text, identifiers, sub-division, pending days and bucket
(src/PMSG.py lines 163-185). -/
structure DetailRow where
  sr_no : Int
  installation_date : String
  application_no : String
  consumer_no : String
  sub_division : String
  pending_days : Int
  age_bucket : String
deriving DecidableEq

/-- Project one classified record to a detail row with sequence number `i`. -/
def mkDetailRow (i : Int) (r : Row) : DetailRow :=
  { sr_no := i, installation_date := formatDMY r.installation_date,
    application_no := r.application_no, consumer_no := r.consumer_no,
    sub_division := r.sub_division, pending_days := r.days_pending,
    age_bucket := r.age_bucket }

/-- Detail rows numbered consecutively from `i` (src/PMSG.py line 175). -/
def numberedDetail (i : Int) : List Row → List DetailRow
  | [] => []
  | r :: rs => mkDetailRow i r :: numberedDetail (i + 1) rs

/-- The detail table: the filtered records sorted by pending days
descending, numbered from 1 (src/PMSG.py lines 161-176). -/
def detail_view (rows : List Row) : List DetailRow :=
  numberedDetail 1 (sortByPendingDesc rows)

/-- Sanity check of the day-number arithmetic: the Unix epoch is day 0 and
the day after it is day 1. -/
theorem toDays_epoch :
    Date.toDays ⟨1, 1, 1970⟩ = 0 ∧ Date.toDays ⟨2, 1, 1970⟩ = 1 := by
  constructor <;> rfl

/-- The bucket index of a classified value as a five-way threshold split. -/
theorem bucketIndex_ageing_bucket (x : Int) :
    bucketIndex (ageing_bucket x) =
      if x ≤ 7 then 0 else if x ≤ 15 then 1 else if x ≤ 30 then 2
      else if x ≤ 45 then 3 else 4 := by
  unfold ageing_bucket
  split_ifs <;> decide

/-- C1: for every integer days value the classifier returns one of the five
labels of `bucket_order`, the bucket position is monotone in the days value,
the mapping matches the inclusive-boundary table, and the four boundary
examples evaluate as tabulated. -/
theorem ageing_bucket_spec (d e : Int) (hde : d ≤ e) :
    ageing_bucket d ∈ bucket_order ∧
    bucketIndex (ageing_bucket d) ≤ bucketIndex (ageing_bucket e) ∧
    (d ≤ 7 → ageing_bucket d = "0 to 7 Days") ∧
    (8 ≤ d ∧ d ≤ 15 → ageing_bucket d = "8 to 15 Days") ∧
    (16 ≤ d ∧ d ≤ 30 → ageing_bucket d = "16 to 30 Days") ∧
    (31 ≤ d ∧ d ≤ 45 → ageing_bucket d = "31 to 45 Days") ∧
    (46 ≤ d → ageing_bucket d = "More than 45 Days") ∧
    ageing_bucket 7 = "0 to 7 Days" ∧ ageing_bucket 8 = "8 to 15 Days" ∧
    ageing_bucket 45 = "31 to 45 Days" ∧
    ageing_bucket 46 = "More than 45 Days" := by
  refine ⟨?_, ?_, ?_, ?_, ?_, ?_, ?_, by decide, by decide, by decide, by decide⟩
  · unfold ageing_bucket; split_ifs <;> decide
  · rw [bucketIndex_ageing_bucket, bucketIndex_ageing_bucket]
    split_ifs <;> omega
  · intro h
    unfold ageing_bucket
    rw [if_pos h]
  · rintro ⟨h1, h2⟩
    unfold ageing_bucket
    rw [if_neg (by omega), if_pos (by omega)]
  · rintro ⟨h1, h2⟩
    unfold ageing_bucket
    rw [if_neg (by omega), if_neg (by omega), if_pos (by omega)]
  · rintro ⟨h1, h2⟩
    unfold ageing_bucket
    rw [if_neg (by omega), if_neg (by omega), if_neg (by omega), if_pos (by omega)]
  · intro h
    unfold ageing_bucket
    rw [if_neg (by omega), if_neg (by omega), if_neg (by omega), if_neg (by omega)]

/-- Witness for C1 at the concrete pair d = 3, e = 50. -/
theorem ageing_bucket_spec_witness :
    ageing_bucket 3 ∈ bucket_order ∧
    bucketIndex (ageing_bucket 3) ≤ bucketIndex (ageing_bucket 50) ∧
    ((3 : Int) ≤ 7 → ageing_bucket 3 = "0 to 7 Days") ∧
    (8 ≤ (3 : Int) ∧ (3 : Int) ≤ 15 → ageing_bucket 3 = "8 to 15 Days") ∧
    (16 ≤ (3 : Int) ∧ (3 : Int) ≤ 30 → ageing_bucket 3 = "16 to 30 Days") ∧
    (31 ≤ (3 : Int) ∧ (3 : Int) ≤ 45 → ageing_bucket 3 = "31 to 45 Days") ∧
    (46 ≤ (3 : Int) → ageing_bucket 3 = "More than 45 Days") ∧
    ageing_bucket 7 = "0 to 7 Days" ∧ ageing_bucket 8 = "8 to 15 Days" ∧
    ageing_bucket 45 = "31 to 45 Days" ∧
    ageing_bucket 46 = "More than 45 Days" :=
  ageing_bucket_spec 3 50 (by decide)

/-- C4: a record whose installation date is strictly after the reference
day gets a non-positive days_pending and is classified "0 to 7 Days" by the
same inclusive comparisons; no separate bucket or failure exists. -/
theorem future_installation_bucket (today : Int) (rec : Record)
    (h : today < rec.installation_date.toDays) :
    (classify today rec).days_pending ≤ 0 ∧
    (classify today rec).age_bucket = "0 to 7 Days" := by
  have hd : (classify today rec).days_pending =
      today - rec.installation_date.toDays + 1 := rfl
  constructor
  · omega
  · show ageing_bucket (daysPending today rec.installation_date.toDays) = _
    unfold ageing_bucket daysPending
    rw [if_pos (by omega)]

/-- Witness for C4: the day after the epoch, seen from the epoch. -/
theorem future_installation_bucket_witness :
    (classify 0 ⟨⟨2, 1, 1970⟩, "A", "C", "SD"⟩).days_pending ≤ 0 ∧
    (classify 0 ⟨⟨2, 1, 1970⟩, "A", "C", "SD"⟩).age_bucket = "0 to 7 Days" :=
  future_installation_bucket 0 ⟨⟨2, 1, 1970⟩, "A", "C", "SD"⟩ (by decide)

/-- C5: selecting the "ALL" sentinel for both the sub-division and the
bucket filter leaves the record set unchanged. -/
theorem filtered_df_all_all_id (rows : List Row) :
    filtered_df "ALL" "ALL" rows = rows := by
  unfold filtered_df
  rw [if_neg (by decide), if_neg (by decide)]

/-- C7: on an empty record set the pipeline yields a summary of zero
sub-division rows plus a single all-zero Grand Total row, and an empty
detail table. -/
theorem empty_input_pipeline :
    summary [] = [] ∧
    final_summary [] = [(⟨0, "Grand Total", 0, 0, 0, 0, 0, 0⟩ : SummaryRow)] ∧
    detail_view [] = [] :=
  ⟨rfl, rfl, rfl⟩

/-- C3 (amended): days_pending is computed as (today − installation_date) + 1,
a record installed on the reference day has days_pending 1, and whenever the
installation date is not after the reference day, days_pending ≥ 1.  (The
unconditional "days_pending ≥ 1" of the original claim fails for future
installation dates, which survive loading; see the counterexample.) -/
theorem days_pending_formula (today : Int) (rec : Record) :
    (classify today rec).days_pending =
      today - rec.installation_date.toDays + 1 ∧
    (rec.installation_date.toDays = today →
      (classify today rec).days_pending = 1) ∧
    (rec.installation_date.toDays ≤ today →
      1 ≤ (classify today rec).days_pending) := by
  have hd : (classify today rec).days_pending =
      today - rec.installation_date.toDays + 1 := rfl
  refine ⟨hd, fun h => ?_, fun h => ?_⟩ <;> omega

/-- Witness for C3 at the epoch record viewed from the epoch day. -/
theorem days_pending_formula_witness :
    (classify 0 ⟨⟨1, 1, 1970⟩, "A", "C", "SD"⟩).days_pending =
      0 - Date.toDays ⟨1, 1, 1970⟩ + 1 ∧
    (Date.toDays ⟨1, 1, 1970⟩ = 0 →
      (classify 0 ⟨⟨1, 1, 1970⟩, "A", "C", "SD"⟩).days_pending = 1) ∧
    (Date.toDays ⟨1, 1, 1970⟩ ≤ 0 →
      1 ≤ (classify 0 ⟨⟨1, 1, 1970⟩, "A", "C", "SD"⟩).days_pending) :=
  days_pending_formula 0 ⟨⟨1, 1, 1970⟩, "A", "C", "SD"⟩

/-- Counterexample to C3 as stated: a raw row dated one day after the
reference day parses and survives loading, yet its days_pending is 0, not
≥ 1. -/
theorem days_pending_ge_one_cex :
    parseRow ⟨"13-10-2026", "A1", "C1", "SD1"⟩ =
      some ⟨⟨13, 10, 2026⟩, "A1", "C1", "SD1"⟩ ∧
    (classify (Date.toDays ⟨12, 10, 2026⟩)
      ⟨⟨13, 10, 2026⟩, "A1", "C1", "SD1"⟩).days_pending = 0 ∧
    ¬ 1 ≤ (classify (Date.toDays ⟨12, 10, 2026⟩)
      ⟨⟨13, 10, 2026⟩, "A1", "C1", "SD1"⟩).days_pending := by
  refine ⟨by decide, by decide, by decide⟩

/-- A raw row contributes a record exactly when its date field parses. -/
theorem parseRow_isSome (raw : RawRow) :
    (parseRow raw).isSome = (parseDMY raw.col0).isSome := by
  unfold parseRow
  cases parseDMY raw.col0 <;> rfl

/-- The loader keeps as many records as there are parseable date fields. -/
theorem loadRecords_length (rows : List RawRow) :
    (loadRecords rows).length =
      rows.countP (fun raw => (parseDMY raw.col0).isSome) := by
  induction rows with
  | nil => rfl
  | cons r rs ih =>
    have hs : (parseDMY r.col0).isSome = (parseRow r).isSome :=
      (parseRow_isSome r).symm
    cases h : parseRow r with
    | none =>
      simp only [loadRecords, List.filterMap_cons, h, List.countP_cons, hs,
        Option.isSome_none] at ih ⊢
      simpa using ih
    | some rec =>
      simp only [loadRecords, List.filterMap_cons, h, List.countP_cons, hs,
        Option.isSome_some, List.length_cons] at ih ⊢
      simpa using ih

/-- C6: the loader output consists of exactly the rows whose column-0 date
field parses in day-month-year format: its length counts the parseable
rows, every parseable row's record is retained, and every output record
comes from some parseable input row; unparseable rows are silently dropped
(a `Record` has no null date to retain). -/
theorem loader_spec (rows : List RawRow) :
    (loadRecords rows).length =
      rows.countP (fun raw => (parseDMY raw.col0).isSome) ∧
    (∀ raw ∈ rows, ∀ rec, parseRow raw = some rec → rec ∈ loadRecords rows) ∧
    (∀ rec ∈ loadRecords rows, ∃ raw ∈ rows, parseRow raw = some rec) := by
  refine ⟨loadRecords_length rows, ?_, ?_⟩
  · intro raw hraw rec hparse
    exact List.mem_filterMap.mpr ⟨raw, hraw, hparse⟩
  · intro rec hrec
    rcases List.mem_filterMap.mp hrec with ⟨raw, hraw, hparse⟩
    exact ⟨raw, hraw, hparse⟩

/-- Witness for C6 on a two-row upload with one parseable and one
unparseable date. -/
theorem loader_spec_witness :
    (⟨⟨5, 1, 2026⟩, "A", "C", "S"⟩ : Record) ∈
      loadRecords [⟨"05-01-2026", "A", "C", "S"⟩, ⟨"31-02-2026", "B", "D", "T"⟩] ∧
    (loadRecords
      [⟨"05-01-2026", "A", "C", "S"⟩, ⟨"31-02-2026", "B", "D", "T"⟩]).length =
      List.countP (fun raw : RawRow => (parseDMY raw.col0).isSome)
        [⟨"05-01-2026", "A", "C", "S"⟩, ⟨"31-02-2026", "B", "D", "T"⟩] :=
  ⟨(loader_spec [⟨"05-01-2026", "A", "C", "S"⟩, ⟨"31-02-2026", "B", "D", "T"⟩]).2.1
      ⟨"05-01-2026", "A", "C", "S"⟩ (by decide)
      ⟨⟨5, 1, 2026⟩, "A", "C", "S"⟩ (by decide),
    (loader_spec [⟨"05-01-2026", "A", "C", "S"⟩, ⟨"31-02-2026", "B", "D", "T"⟩]).1⟩

/-- Every pivot row carries TOTAL equal to the sum of its five buckets. -/
theorem mem_numberedRows_total (rows : List Row) :
    ∀ (ss : List String) (i : Int) (r : SummaryRow),
      r ∈ numberedRows rows i ss →
      r.total = r.c0to7 + r.c8to15 + r.c16to30 + r.c31to45 + r.cMore45 := by
  intro ss
  induction ss with
  | nil =>
    intro i r hr
    simp [numberedRows] at hr
  | cons s ts ih =>
    intro i r hr
    rcases List.mem_cons.mp hr with h | h
    · subst h; rfl
    · exact ih (i + 1) r h

/-- If every row totals its buckets, the total column sums to the five
bucket column sums. -/
theorem sum_totals (l : List SummaryRow)
    (h : ∀ r ∈ l,
      r.total = r.c0to7 + r.c8to15 + r.c16to30 + r.c31to45 + r.cMore45) :
    (l.map (fun r => r.total)).sum =
      (l.map (fun r => r.c0to7)).sum + (l.map (fun r => r.c8to15)).sum +
      (l.map (fun r => r.c16to30)).sum + (l.map (fun r => r.c31to45)).sum +
      (l.map (fun r => r.cMore45)).sum := by
  induction l with
  | nil => rfl
  | cons r rs ih =>
    simp only [List.map_cons, List.sum_cons]
    have hr := h r (List.mem_cons_self r rs)
    have ht := ih fun q hq => h q (List.mem_cons_of_mem r hq)
    omega

/-- C2: in every summary table (over any filtered record set) each row,
the Grand Total row included, has TOTAL equal to the sum of its five bucket
columns, and each bucket column of the Grand Total row is the sum of that
column over the non-total rows. -/
theorem summary_totals_spec (rows : List Row) :
    (∀ r ∈ final_summary rows,
      r.total = r.c0to7 + r.c8to15 + r.c16to30 + r.c31to45 + r.cMore45) ∧
    (grand_row (summary rows)).c0to7 =
      ((summary rows).map (fun r => r.c0to7)).sum ∧
    (grand_row (summary rows)).c8to15 =
      ((summary rows).map (fun r => r.c8to15)).sum ∧
    (grand_row (summary rows)).c16to30 =
      ((summary rows).map (fun r => r.c16to30)).sum ∧
    (grand_row (summary rows)).c31to45 =
      ((summary rows).map (fun r => r.c31to45)).sum ∧
    (grand_row (summary rows)).cMore45 =
      ((summary rows).map (fun r => r.cMore45)).sum ∧
    final_summary rows = summary rows ++ [grand_row (summary rows)] := by
  have hmem : ∀ r ∈ summary rows,
      r.total = r.c0to7 + r.c8to15 + r.c16to30 + r.c31to45 + r.cMore45 :=
    fun r hr => mem_numberedRows_total rows (subDivisions rows) 1 r hr
  refine ⟨?_, rfl, rfl, rfl, rfl, rfl, rfl⟩
  intro r hr
  unfold final_summary at hr
  rcases List.mem_append.mp hr with h | h
  · exact hmem r h
  · have hg : r = grand_row (summary rows) := by simpa using h
    subst hg
    exact sum_totals (summary rows) hmem

/-- Witness for C2 on a one-record set: the Grand Total row totals its
buckets. -/
theorem summary_totals_witness :
    (grand_row (summary [⟨⟨1, 1, 1970⟩, "A", "C", "S", 1, "0 to 7 Days"⟩])).total =
      (grand_row (summary [⟨⟨1, 1, 1970⟩, "A", "C", "S", 1, "0 to 7 Days"⟩])).c0to7 +
      (grand_row (summary [⟨⟨1, 1, 1970⟩, "A", "C", "S", 1, "0 to 7 Days"⟩])).c8to15 +
      (grand_row (summary [⟨⟨1, 1, 1970⟩, "A", "C", "S", 1, "0 to 7 Days"⟩])).c16to30 +
      (grand_row (summary [⟨⟨1, 1, 1970⟩, "A", "C", "S", 1, "0 to 7 Days"⟩])).c31to45 +
      (grand_row (summary [⟨⟨1, 1, 1970⟩, "A", "C", "S", 1, "0 to 7 Days"⟩])).cMore45 :=
  (summary_totals_spec [⟨⟨1, 1, 1970⟩, "A", "C", "S", 1, "0 to 7 Days"⟩]).1
    (grand_row (summary [⟨⟨1, 1, 1970⟩, "A", "C", "S", 1, "0 to 7 Days"⟩]))
    (by decide)

/-- Numbering the detail rows does not change the pending-days column. -/
theorem numberedDetail_map_pending :
    ∀ (rs : List Row) (i : Int),
      (numberedDetail i rs).map (fun r => r.pending_days) =
        rs.map (fun r => r.days_pending) := by
  intro rs
  induction rs with
  | nil => intro i; rfl
  | cons r ts ih =>
    intro i
    simp only [numberedDetail, List.map_cons, ih]
    rfl

/-- C9: the detail table is sorted by Pending (Days) in descending order:
in the pending-days column every entry is ≥ every later entry; moreover the
sort is a permutation of the filtered record set. -/
theorem detail_sorted_desc (rows : List Row) :
    ((detail_view rows).map (fun r => r.pending_days)).Sorted
      (fun a b => b ≤ a) ∧
    (sortByPendingDesc rows).Perm rows := by
  constructor
  · show ((numberedDetail 1 (sortByPendingDesc rows)).map
      (fun r => r.pending_days)).Sorted (fun a b => b ≤ a)
    rw [numberedDetail_map_pending]
    have hs : (sortByPendingDesc rows).Sorted pendingGE :=
      List.sorted_insertionSort pendingGE rows
    exact List.Pairwise.map _ (fun a b hab => hab) hs
  · exact List.perm_insertionSort pendingGE rows

/-- Numbering the pivot rows does not change the sub-division column. -/
theorem numberedRows_map_sub (rows : List Row) :
    ∀ (ss : List String) (i : Int),
      (numberedRows rows i ss).map (fun r => r.sub_division) = ss := by
  intro ss
  induction ss with
  | nil => intro i; rfl
  | cons s ts ih =>
    intro i
    simp only [numberedRows, List.map_cons, ih]
    rfl

/-- C10: the non-total summary rows appear in strictly ascending
lexicographic order of their Sub Division value, namely in the order of the
sorted deduplicated sub-division index of the pivot; being a pure function
of the record set, the ordering is the same on every recomputation. -/
theorem summary_order_spec (rows : List Row) :
    (summary rows).map (fun r => r.sub_division) = subDivisions rows ∧
    ((summary rows).map (fun r => r.sub_division)).Sorted (· < ·) := by
  have hmap : (summary rows).map (fun r => r.sub_division) = subDivisions rows :=
    numberedRows_map_sub rows (subDivisions rows) 1
  refine ⟨hmap, ?_⟩
  rw [hmap]
  have hle : (subDivisions rows).Sorted (· ≤ ·) := by
    unfold subDivisions
    exact List.sorted_insertionSort (· ≤ ·) _
  have hnd : (subDivisions rows).Nodup := by
    unfold subDivisions
    exact (List.perm_insertionSort (· ≤ ·) _).nodup_iff.mpr
      (List.nodup_dedup _)
  exact hle.lt_of_le hnd

/-- The pivot rows are numbered consecutively starting from `i`. -/
theorem numberedRows_map_sr_no (rows : List Row) :
    ∀ (ss : List String) (i : Int),
      (numberedRows rows i ss).map (fun r => r.sr_no) =
        (List.range ss.length).map (fun (n : Nat) => i + (n : Int)) := by
  intro ss
  induction ss with
  | nil => intro i; rfl
  | cons s ts ih =>
    intro i
    rw [List.length_cons, List.range_succ_eq_map, List.map_cons, List.map_map]
    show (mkSummaryRow rows i s).sr_no ::
      (numberedRows rows (i + 1) ts).map (fun r => r.sr_no) = _
    rw [ih]
    congr 1
    · simp [mkSummaryRow]
    · refine List.map_congr_left fun n hn => ?_
      simp only [Function.comp_apply]
      push_cast
      ring

/-- Numbering the pivot rows preserves their count. -/
theorem numberedRows_length (rows : List Row) :
    ∀ (ss : List String) (i : Int),
      (numberedRows rows i ss).length = ss.length := by
  intro ss
  induction ss with
  | nil => intro i; rfl
  | cons s ts ih =>
    intro i
    simp only [numberedRows, List.length_cons, ih]

/-- C8 (amended): the non-total summary rows carry 1-based consecutive
sequence numbers, the table ends with exactly one synthetic Grand Total row
with sequence number 0 — and, provided no sub-division value in the data is
itself the string "Grand Total", no other row carries that label.  (Without
that proviso the original claim fails; see the counterexample.) -/
theorem summary_numbering_spec (rows : List Row)
    (h : "Grand Total" ∉ rows.map (fun r => r.sub_division)) :
    ((summary rows).map (fun r => r.sr_no) =
      (List.range (summary rows).length).map (fun (n : Nat) => 1 + (n : Int))) ∧
    final_summary rows = summary rows ++ [grand_row (summary rows)] ∧
    (grand_row (summary rows)).sr_no = 0 ∧
    (grand_row (summary rows)).sub_division = "Grand Total" ∧
    (∀ r ∈ summary rows, r.sub_division ≠ "Grand Total") := by
  refine ⟨?_, rfl, rfl, rfl, ?_⟩
  · rw [show (summary rows).length = (subDivisions rows).length from
      numberedRows_length rows (subDivisions rows) 1]
    exact numberedRows_map_sr_no rows (subDivisions rows) 1
  · intro r hr heq
    have hmem : r.sub_division ∈ subDivisions rows := by
      have hin : r.sub_division ∈ (summary rows).map (fun q => q.sub_division) :=
        List.mem_map_of_mem _ hr
      unfold summary at hin
      rwa [numberedRows_map_sub rows (subDivisions rows) 1] at hin
    have hded : r.sub_division ∈ (rows.map (fun q => q.sub_division)).dedup := by
      unfold subDivisions at hmem
      exact ((List.perm_insertionSort (· ≤ ·) _).mem_iff).mp hmem
    have hmap : r.sub_division ∈ rows.map (fun q => q.sub_division) :=
      List.mem_dedup.mp hded
    exact h (heq ▸ hmap)

/-- Witness for C8 on a one-record set whose sub-division is "S". -/
theorem summary_numbering_witness :
    ((summary [⟨⟨1, 1, 1970⟩, "A", "C", "S", 1, "0 to 7 Days"⟩]).map
        (fun r => r.sr_no) =
      (List.range
          (summary [⟨⟨1, 1, 1970⟩, "A", "C", "S", 1, "0 to 7 Days"⟩]).length).map
        (fun (n : Nat) => 1 + (n : Int))) ∧
    final_summary [⟨⟨1, 1, 1970⟩, "A", "C", "S", 1, "0 to 7 Days"⟩] =
      summary [⟨⟨1, 1, 1970⟩, "A", "C", "S", 1, "0 to 7 Days"⟩] ++
      [grand_row (summary [⟨⟨1, 1, 1970⟩, "A", "C", "S", 1, "0 to 7 Days"⟩])] ∧
    (grand_row (summary [⟨⟨1, 1, 1970⟩, "A", "C", "S", 1, "0 to 7 Days"⟩])).sr_no
      = 0 ∧
    (grand_row
        (summary [⟨⟨1, 1, 1970⟩, "A", "C", "S", 1, "0 to 7 Days"⟩])).sub_division
      = "Grand Total" ∧
    (∀ r ∈ summary [⟨⟨1, 1, 1970⟩, "A", "C", "S", 1, "0 to 7 Days"⟩],
      r.sub_division ≠ "Grand Total") :=
  summary_numbering_spec [⟨⟨1, 1, 1970⟩, "A", "C", "S", 1, "0 to 7 Days"⟩]
    (by decide)

/-- Counterexample to C8 as stated: when the data contains a record whose
sub-division is literally "Grand Total", the full pipeline produces a
summary table with two rows labeled "Grand Total", and the first of them is
a non-total row with sequence number 1. -/
theorem summary_numbering_cex :
    ((final_summary (filtered_df "ALL" "ALL"
        [classify (Date.toDays ⟨1, 1, 1970⟩)
          ⟨⟨1, 1, 1970⟩, "A", "C", "Grand Total"⟩])).filter
      (fun q => q.sub_division == "Grand Total")).length = 2 ∧
    ((final_summary (filtered_df "ALL" "ALL"
        [classify (Date.toDays ⟨1, 1, 1970⟩)
          ⟨⟨1, 1, 1970⟩, "A", "C", "Grand Total"⟩])).filter
      (fun q => q.sub_division == "Grand Total")).map (fun q => q.sr_no) =
      [1, 0] := by
  refine ⟨by decide, by decide⟩
